import Mathlib

/-!
Verification development for the Public Transaction Engine of the paladin
repository (Go package `publictxmgr`).

The engine implementation file itself (`publicTxEngine` with
`HandleNewTransaction`, `HandleSuspendTransaction`, `HandleResumeTransaction`,
`HandleConfirmedTransactions`) is not present in the source tree made
available here; only its unit-test file is.  The definitions below are
therefore modelled from the specification (spec.md sections 3, 4.5, 5, 7, 8),
with every behavioural detail that the unit tests pin down (mock expectations
and assertions in the engine test file) taken as authoritative, since the
tests are repository source code.

The embedding is a pure, executable model: every fallible collaborator
(key manager, ledger RPC, transaction store) is represented by an
environment record of `Except`-valued outcomes, mirroring the mocks used by
the unit tests, and each engine operation returns its result together with
the trace of collaborator calls it made, so that "no PTX is inserted into
the store" or "GasEstimate is never called" are directly statable.
-/

set_option autoImplicit false

namespace Paladin

/-- Substring primitive: does `s` start with `pat` (character lists)? -/
def leadsWith : List Char → List Char → Bool
  | [], _ => true
  | _ :: _, [] => false
  | c :: cs, d :: ds => c == d && leadsWith cs ds

/-- Substring primitive: does `pat` occur anywhere inside `s`? -/
def hasSub (pat : List Char) : List Char → Bool
  | [] => pat.isEmpty
  | c :: rest => leadsWith pat (c :: rest) || hasSub pat rest

/-- String-level substring test, used for error-message classification. -/
def strHasSub (s pat : String) : Bool :=
  hasSub pat.toList s.toList

/-- Modelled from the spec: the source classifies a gas-estimate failure by
string-matching the error message for "execution reverted" (spec section 9,
"Execution reverted detection"). -/
def indicatesExecutionReverted (msg : String) : Bool :=
  strHasSub msg "execution reverted"

/-- PTX status, spec section 3: {Pending, Suspended, Succeeded, Failed}. -/
inductive PubTxStatus where
  | Pending
  | Suspended
  | Succeeded
  | Failed
deriving DecidableEq, Repr

/-- Terminal statuses: Succeeded and Failed (spec section 3 invariants). -/
def PubTxStatus.isTerminal : PubTxStatus → Bool
  | .Succeeded => true
  | .Failed => true
  | _ => false

/-- Sub-status constants appearing in the engine path (only `Received` is
exercised by `HandleNewTransaction`). -/
inductive PubTxSubStatus where
  | Received
deriving DecidableEq, Repr

/-- Sub-status action constants appearing in the engine path. -/
inductive BaseTxAction where
  | AssignNonce
deriving DecidableEq, Repr

/-- The durable PublicTransaction record (spec section 3 data model).
Addresses are modelled as strings; calldata is not needed by any claim. -/
structure PublicTX where
  id : String
  fromAddr : String
  toAddr : Option String
  value : Option Nat
  gasLimit : Option Nat
  gasPrice : Option Nat
  nonce : Option Nat
  status : PubTxStatus
deriving DecidableEq, Repr

/-- Payload variants accepted by `HandleNewTransaction` (spec section 4.5:
plain transfer, contract invoke, contract deploy); `unrecognized` stands for
any other Go value passed in (e.g. the string "not a valid object"). -/
inductive TxPayload where
  | ethTransfer (toAddr : String) (value : Nat)
  | ethTransaction (toAddr : String)
  | ethDeployTransaction
  | unrecognized (raw : String)
deriving DecidableEq, Repr

/-- Does this payload variant require parsing an ABI and building calldata? -/
def payloadNeedsABI : TxPayload → Bool
  | .ethTransaction _ => true
  | .ethDeployTransaction => true
  | _ => false

/-- Is this payload one of the recognized variants? -/
def payloadRecognized : TxPayload → Bool
  | .unrecognized _ => false
  | _ => true

/-- Destination address carried by the payload, when there is one. -/
def payloadToAddr : TxPayload → Option String
  | .ethTransfer t _ => some t
  | .ethTransaction t => some t
  | _ => none

/-- Transfer value carried by the payload, when there is one. -/
def payloadValue : TxPayload → Option Nat
  | .ethTransfer _ v => some v
  | _ => none

/-- Request options for `HandleNewTransaction` (`components.RequestOptions`):
optional transaction ID, signer identifier, optional caller-supplied gas
limit. -/
structure RequestOptions where
  id : Option String
  signerID : String
  gasLimit : Option Nat
deriving DecidableEq, Repr

/-- Outcomes of the collaborators `HandleNewTransaction` consults, mirroring
the unit-test mocks: key manager `ResolveKey`, eth client `ABIFunction` /
`ABIConstructor`, calldata builder `BuildCallData`, ledger `GasEstimate` and
`GetTransactionCount`, store `InsertTransaction`; plus whether the configured
gas-price client reports a zero-gas-price chain (in which case the inserted
PTX carries gas price 0 rather than a deferred nil price). -/
structure NewTxEnv where
  resolveKey : Except String String
  abiParse : Except String Unit
  buildCallData : Except String Unit
  gasEstimate : Except String Nat
  getTransactionCount : Except String Nat
  insertTransaction : Except String Unit
  zeroGasPriceChain : Bool

/-- One observable collaborator call made by `HandleNewTransaction`. -/
inductive EngineCall where
  | callResolveKey
  | callABIParse
  | callBuildCallData
  | callGasEstimate
  | callGetTransactionCount
  | callInsertTransaction (tx : PublicTX)
  | callUpdateSubStatus (txId : String) (sub : PubTxSubStatus) (action : BaseTxAction)
deriving DecidableEq, Repr

/-- Result of `HandleNewTransaction`: the inserted PTX when successful, the
`submissionRejected` flag, the returned error message, and the trace of
collaborator calls made. -/
structure HNTResult where
  tx : Option PublicTX
  submissionRejected : Bool
  err : Option String
  trace : List EngineCall
deriving DecidableEq, Repr

/-- Stable error identifier `TransactionIDMissing` (PD011910). -/
def errTransactionIDMissing : String := "PD011910: TransactionIDMissing"

/-- Stable error identifier `UnsupportedPayloadVariant` (PD011929). -/
def errUnsupportedPayloadVariant : String := "PD011929: UnsupportedPayloadVariant"

/-- Stable error identifier `TerminalStatusUpdate` (PD011921). -/
def errTerminalStatusUpdate : String := "PD011921: TerminalStatusUpdate"

/-- Stable error identifier `ContextCancelled` (PD011926), surfaced by the
engine to callers of Suspend/Resume. -/
def errContextCancelled : String := "PD011926: ContextCancelled"

/-- Context-canceled error of the common message catalogue (PD010301),
surfaced by `HandleConfirmedTransactions` under a canceled context (pinned
by the engine unit test). -/
def errContextCanceledCommon : String := "PD010301: Context canceled"

/-- Error returned when the queried transaction is absent from the store. -/
def errTransactionNotFound : String := "PD011924: TransactionNotFound"

/-- The PTX record built and inserted for a plain transfer: status Pending,
nonce assigned from `GetTransactionCount`, gas price 0 on a zero-gas-price
chain and nil (deferred) otherwise. -/
def mkInsertedTransfer (env : NewTxEnv) (txId fromAddr toAddr : String)
    (value gas nonce : Nat) : PublicTX :=
  { id := txId
    fromAddr := fromAddr
    toAddr := some toAddr
    value := some value
    gasLimit := some gas
    gasPrice := if env.zeroGasPriceChain then some 0 else none
    nonce := some nonce
    status := .Pending }

/-- Nonce query, build, insert and sub-status stage of `HandleNewTransaction`
(shared tail of all payload variants), entered with the gas limit already
settled. -/
def persistNewTx (env : NewTxEnv) (payload : TxPayload) (txId fromAddr : String)
    (gas : Nat) (t : List EngineCall) : HNTResult :=
  match env.getTransactionCount with
  | .error e =>
      { tx := none, submissionRejected := false, err := some e
        trace := t ++ [.callGetTransactionCount] }
  | .ok nonce =>
      let ptx : PublicTX :=
        { id := txId
          fromAddr := fromAddr
          toAddr := payloadToAddr payload
          value := payloadValue payload
          gasLimit := some gas
          gasPrice := if env.zeroGasPriceChain then some 0 else none
          nonce := some nonce
          status := .Pending }
      match env.insertTransaction with
      | .error e =>
          { tx := none, submissionRejected := false, err := some e
            trace := t ++ [.callGetTransactionCount, .callInsertTransaction ptx] }
      | .ok _ =>
          { tx := some ptx, submissionRejected := false, err := none
            trace := t ++ [.callGetTransactionCount, .callInsertTransaction ptx,
                           .callUpdateSubStatus txId .Received .AssignNonce] }

/-- Gas-limit stage of `HandleNewTransaction`: use the caller-supplied limit
when present (no `GasEstimate` call), otherwise call the ledger's
`GasEstimate`; an estimate failure is payload-fatal exactly when its message
indicates "execution reverted". -/
def estimateStage (env : NewTxEnv) (req : RequestOptions) (payload : TxPayload)
    (txId fromAddr : String) (t : List EngineCall) : HNTResult :=
  match req.gasLimit with
  | some gas => persistNewTx env payload txId fromAddr gas t
  | none =>
      match env.gasEstimate with
      | .error e =>
          { tx := none, submissionRejected := indicatesExecutionReverted e
            err := some e, trace := t ++ [.callGasEstimate] }
      | .ok gas => persistNewTx env payload txId fromAddr gas (t ++ [.callGasEstimate])

/-- Modelled from the spec: `publicTxEngine.HandleNewTransaction` (package
`publictxmgr`) is absent from the available source tree; this definition
follows spec section 4.5 — validate `req.ID` present and payload variant
recognized, resolve the signing key, parse the function/constructor ABI and
build calldata where applicable, estimate gas if not provided, query the
next nonce, persist the PTX and append the AssignNonce sub-status — with the
`submissionRejected` classification of each failure path pinned by the
engine unit tests (key-resolution, ABI-parse, calldata-build, nonce-query
and insert failures are transient; missing ID, unrecognized payload and
execution-reverted estimates are payload-fatal). -/
def HandleNewTransaction (env : NewTxEnv) (req : RequestOptions)
    (payload : TxPayload) : HNTResult :=
  match req.id with
  | none =>
      { tx := none, submissionRejected := true
        err := some errTransactionIDMissing, trace := [] }
  | some txId =>
      if payloadRecognized payload then
        match env.resolveKey with
        | .error e =>
            { tx := none, submissionRejected := false, err := some e
              trace := [.callResolveKey] }
        | .ok fromAddr =>
            if payloadNeedsABI payload then
              match env.abiParse with
              | .error e =>
                  { tx := none, submissionRejected := false, err := some e
                    trace := [.callResolveKey, .callABIParse] }
              | .ok _ =>
                  match env.buildCallData with
                  | .error e =>
                      { tx := none, submissionRejected := false, err := some e
                        trace := [.callResolveKey, .callABIParse, .callBuildCallData] }
                  | .ok _ =>
                      estimateStage env req payload txId fromAddr
                        [.callResolveKey, .callABIParse, .callBuildCallData]
            else
              estimateStage env req payload txId fromAddr [.callResolveKey]
      else
        { tx := none, submissionRejected := true
          err := some errUnsupportedPayloadVariant, trace := [] }

/-- Per-signer orchestrator state as seen by the engine's dispatch logic:
the IDs of the transactions currently in flight inside it. -/
structure OrchestratorSt where
  inFlightTxIDs : List String
deriving DecidableEq, Repr

/-- Engine state relevant to dispatch: the map from signing address to live
orchestrator (as an association list) and the `maxInFlightOrchestrators`
bound (-1 means unlimited). -/
structure EngineState where
  orchestrators : List (String × OrchestratorSt)
  maxInFlightOrchestrators : Int
deriving DecidableEq, Repr

/-- Look up the live orchestrator for a signing address. -/
def EngineState.lookupOrchestrator (eng : EngineState) (addr : String) :
    Option OrchestratorSt :=
  (eng.orchestrators.find? (fun p => p.1 == addr)).map Prod.snd

/-- The persistent transaction store, as the list of PTX records it holds. -/
structure Store where
  txs : List PublicTX
deriving DecidableEq, Repr

/-- `GetTransactionByID` against the store contents. -/
def Store.getTransactionByID (s : Store) (txId : String) : Option PublicTX :=
  s.txs.find? (fun t => t.id == txId)

/-- `UpdateTransaction` restricted to a status update, applied to the store
contents. -/
def Store.updateStatus (s : Store) (txId : String) (st : PubTxStatus) : Store :=
  ⟨s.txs.map (fun t => if t.id == txId then { t with status := st } else t)⟩

/-- Failure injections for a suspend/resume call, mirroring the unit-test
mocks: whether `GetTransactionByID` fails (and with what message), whether
`UpdateTransaction` fails, and whether the context is observed canceled
after the store read. -/
structure ActionEnv where
  getFailure : Option String
  updateFailure : Option String
  ctxCancelled : Bool
deriving DecidableEq, Repr

/-- Outcome of a suspend/resume call. -/
inductive ActionOutcome where
  | ok (tx : PublicTX)
  | err (msg : String)
deriving DecidableEq, Repr

/-- Full result of a suspend/resume call: outcome, resulting store,
whether a synchronous `UpdateTransaction` was performed, and whether the
status change was instead queued asynchronously to an in-flight IFT. -/
structure ActionResult where
  outcome : ActionOutcome
  store : Store
  storeUpdated : Bool
  queuedAsync : Bool
deriving DecidableEq, Repr

/-- Is the transaction currently in flight inside a live orchestrator for
its signing address? -/
def txInFlightFor (eng : EngineState) (fromAddr txId : String) : Bool :=
  match eng.lookupOrchestrator fromAddr with
  | some orch => orch.inFlightTxIDs.contains txId
  | none => false

/-- Modelled from the spec: the engine's shared suspend/resume dispatch
(`publicTxEngine.HandleSuspendTransaction` / `HandleResumeTransaction` in
package `publictxmgr` are absent from the available source tree).  Per spec
section 4.5 and the engine unit tests: read the PTX from the store (a read
failure is surfaced); observe context cancellation after the read
(`PD011926`); a PTX already on the target status is returned unchanged
(no-op); a terminal PTX is rejected with `PD011921`; otherwise, when a live
orchestrator holds the PTX in flight the status change is queued
asynchronously to the IFT's loop with no synchronous store update, and when
it does not, the status is updated synchronously in the store and the
updated PTX returned. -/
def dispatchAction (eng : EngineState) (store : Store) (env : ActionEnv)
    (txId : String) (target : PubTxStatus) : ActionResult :=
  match env.getFailure with
  | some e => { outcome := .err e, store := store, storeUpdated := false, queuedAsync := false }
  | none =>
    match store.getTransactionByID txId with
    | none =>
        { outcome := .err errTransactionNotFound, store := store
          storeUpdated := false, queuedAsync := false }
    | some tx =>
      if env.ctxCancelled then
        { outcome := .err errContextCancelled, store := store
          storeUpdated := false, queuedAsync := false }
      else if tx.status = target then
        { outcome := .ok tx, store := store, storeUpdated := false, queuedAsync := false }
      else if tx.status.isTerminal then
        { outcome := .err errTerminalStatusUpdate, store := store
          storeUpdated := false, queuedAsync := false }
      else if txInFlightFor eng tx.fromAddr txId then
        { outcome := .ok tx, store := store, storeUpdated := false, queuedAsync := true }
      else
        match env.updateFailure with
        | some e =>
            { outcome := .err e, store := store, storeUpdated := false, queuedAsync := false }
        | none =>
            { outcome := .ok { tx with status := target }
              store := store.updateStatus txId target
              storeUpdated := true, queuedAsync := false }

/-- Modelled from the spec: `HandleSuspendTransaction` moves a PTX towards
`Suspended` (spec section 4.5). -/
def HandleSuspendTransaction (eng : EngineState) (store : Store)
    (env : ActionEnv) (txId : String) : ActionResult :=
  dispatchAction eng store env txId .Suspended

/-- Modelled from the spec: `HandleResumeTransaction` moves a PTX towards
`Pending` (spec section 4.5). -/
def HandleResumeTransaction (eng : EngineState) (store : Store)
    (env : ActionEnv) (txId : String) : ActionResult :=
  dispatchAction eng store env txId .Pending

/-- A confirmed-transaction event delivered by the block indexer
(`blockindexer.IndexedTransaction`). -/
structure IndexedTransaction where
  blockNumber : Nat
  transactionIndex : Nat
  hash : String
  resultSuccess : Bool
  nonce : Nat
  fromAddr : String
deriving DecidableEq, Repr

/-- May the engine spawn one more orchestrator?  The bound -1 means
unlimited (spec section 6 configuration table). -/
def canSpawnOrchestrator (eng : EngineState) : Bool :=
  eng.maxInFlightOrchestrators < 0 ||
    (Int.ofNat eng.orchestrators.length) < eng.maxInFlightOrchestrators

/-- Spawn a fresh orchestrator for a signing address. -/
def spawnOrchestrator (eng : EngineState) (addr : String) : EngineState :=
  { eng with orchestrators := eng.orchestrators ++ [(addr, ⟨[]⟩)] }

/-- Dispatch of one confirmed-transaction event (spec section 4.5): look up
the orchestrator by the `from` address and hand the event to it (an
in-memory hand-off that does not change the engine's orchestrator map);
when no orchestrator exists for that address, spawn one — but only up to
the `maxInFlightOrchestrators` bound. -/
def handleConfirmedEvent (eng : EngineState) (ev : IndexedTransaction) : EngineState :=
  match eng.lookupOrchestrator ev.fromAddr with
  | some _ => eng
  | none => if canSpawnOrchestrator eng then spawnOrchestrator eng ev.fromAddr else eng

/-- Outcome of `HandleConfirmedTransactions`. -/
inductive ConfirmOutcome where
  | ok (eng : EngineState)
  | err (msg : String)
deriving DecidableEq, Repr

/-- Modelled from the spec: `publicTxEngine.HandleConfirmedTransactions`
(package `publictxmgr`) is absent from the available source tree.  Per spec
section 4.5 it dispatches each indexed transaction to the orchestrator of
its `from` address, spawning one (up to the bound) when none exists, and
returns promptly on context cancellation; the engine unit test pins the
cancellation error down to the common `PD010301` context-canceled
identifier. -/
def HandleConfirmedTransactions (eng : EngineState) (ctxCancelled : Bool)
    (events : List IndexedTransaction) : ConfirmOutcome :=
  if ctxCancelled then .err errContextCanceledCommon
  else .ok (events.foldl handleConfirmedEvent eng)

/-! ## Claim theorems -/

/-- C1: for every call to HandleNewTransaction in which the transaction
payload is built successfully (a plain transfer, or a contract invoke or
contract deploy whose ABI parse and calldata build succeed) but the ledger
GasEstimate call fails, the returned submissionRejected flag is true if and
only if the estimate failure's message indicates "execution reverted"; in
both cases a non-nil error carrying the estimate failure's message is
returned and no PTX is inserted into the store. -/
theorem C1_estimate_failure_classification
    (env : NewTxEnv) (req : RequestOptions) (payload : TxPayload)
    (txId addr msg : String)
    (hrec : payloadRecognized payload = true)
    (hid : req.id = some txId) (hgl : req.gasLimit = none)
    (hkey : env.resolveKey = .ok addr)
    (habi : payloadNeedsABI payload = true →
      env.abiParse = .ok () ∧ env.buildCallData = .ok ())
    (hest : env.gasEstimate = .error msg) :
    ((HandleNewTransaction env req payload).submissionRejected = true
        ↔ indicatesExecutionReverted msg = true) ∧
    (HandleNewTransaction env req payload).err = some msg ∧
    ∀ ptx : PublicTX,
      EngineCall.callInsertTransaction ptx ∉
        (HandleNewTransaction env req payload).trace := by
  cases payload with
  | ethTransfer toAddr value =>
      simp [HandleNewTransaction, estimateStage, payloadRecognized, payloadNeedsABI,
        hid, hgl, hkey, hest]
  | ethTransaction toAddr =>
      obtain ⟨h1, h2⟩ := habi rfl
      simp [HandleNewTransaction, estimateStage, payloadRecognized, payloadNeedsABI,
        hid, hgl, hkey, h1, h2, hest]
  | ethDeployTransaction =>
      obtain ⟨h1, h2⟩ := habi rfl
      simp [HandleNewTransaction, estimateStage, payloadRecognized, payloadNeedsABI,
        hid, hgl, hkey, h1, h2, hest]
  | unrecognized raw =>
      simp [payloadRecognized] at hrec

/-- Witness for C1 at the spec's reverted-estimate scenario: a transfer with
no supplied gas limit whose estimate fails with "execution reverted". -/
def envRevertEstimate : NewTxEnv :=
  { resolveKey := .ok "0x4e598f6e918321dd47c86e7a077b4ab0e7414846"
    abiParse := .ok ()
    buildCallData := .ok ()
    gasEstimate := .error "execution reverted"
    getTransactionCount := .ok 1
    insertTransaction := .ok ()
    zeroGasPriceChain := false }

/-- Request used by the concrete HandleNewTransaction witnesses: ID present,
no caller-supplied gas limit. -/
def reqNoGas : RequestOptions :=
  { id := some "u2", signerID := "0x4e598f6e918321dd47c86e7a077b4ab0e7414846"
    gasLimit := none }

theorem C1_estimate_failure_classification_witness :
    ((HandleNewTransaction envRevertEstimate reqNoGas
        (.ethTransaction "0xb60e8dd61c5d32be8058bb8eb970870f07233155")).submissionRejected = true
        ↔ indicatesExecutionReverted "execution reverted" = true) ∧
    (HandleNewTransaction envRevertEstimate reqNoGas
        (.ethTransaction "0xb60e8dd61c5d32be8058bb8eb970870f07233155")).err
      = some "execution reverted" ∧
    ∀ ptx : PublicTX,
      EngineCall.callInsertTransaction ptx ∉
        (HandleNewTransaction envRevertEstimate reqNoGas
          (.ethTransaction "0xb60e8dd61c5d32be8058bb8eb970870f07233155")).trace :=
  C1_estimate_failure_classification envRevertEstimate reqNoGas
    (.ethTransaction "0xb60e8dd61c5d32be8058bb8eb970870f07233155") "u2"
    "0x4e598f6e918321dd47c86e7a077b4ab0e7414846" "execution reverted"
    rfl rfl rfl rfl (fun _ => ⟨rfl, rfl⟩) rfl

/-- C9: for every call to HandleNewTransaction whose payload is not one of
the recognized variants (plain transfer, contract invoke, contract deploy),
the call returns submissionRejected=true and the UnsupportedPayloadVariant
error (PD011929), and no PTX is inserted into the store (the call trace is
empty). -/
theorem C9_unsupported_payload_variant
    (env : NewTxEnv) (req : RequestOptions) (raw txId : String)
    (hid : req.id = some txId) :
    HandleNewTransaction env req (.unrecognized raw) =
      { tx := none, submissionRejected := true
        err := some errUnsupportedPayloadVariant, trace := [] } ∧
    strHasSub errUnsupportedPayloadVariant "PD011929" = true := by
  refine ⟨?_, by decide⟩
  simp [HandleNewTransaction, payloadRecognized, hid]

theorem C9_unsupported_payload_variant_witness :
    HandleNewTransaction envRevertEstimate reqNoGas (.unrecognized "not a valid object") =
      { tx := none, submissionRejected := true
        err := some errUnsupportedPayloadVariant, trace := [] } ∧
    strHasSub errUnsupportedPayloadVariant "PD011929" = true :=
  C9_unsupported_payload_variant envRevertEstimate reqNoGas "not a valid object" "u2" rfl

/-- C10: for every call to HandleNewTransaction whose request options carry
no transaction ID, the call returns submissionRejected=true and the
TransactionIDMissing error (PD011910), and no PTX is inserted into the store
(the call trace is empty). -/
theorem C10_missing_transaction_id
    (env : NewTxEnv) (req : RequestOptions) (payload : TxPayload)
    (hid : req.id = none) :
    HandleNewTransaction env req payload =
      { tx := none, submissionRejected := true
        err := some errTransactionIDMissing, trace := [] } ∧
    strHasSub errTransactionIDMissing "PD011910" = true := by
  refine ⟨?_, by decide⟩
  simp [HandleNewTransaction, hid]

/-- Request with no transaction ID, used by the C10 witness. -/
def reqNoID : RequestOptions :=
  { id := none, signerID := "0x4e598f6e918321dd47c86e7a077b4ab0e7414846"
    gasLimit := none }

theorem C10_missing_transaction_id_witness :
    HandleNewTransaction envRevertEstimate reqNoID
        (.ethTransaction "0xb60e8dd61c5d32be8058bb8eb970870f07233155") =
      { tx := none, submissionRejected := true
        err := some errTransactionIDMissing, trace := [] } ∧
    strHasSub errTransactionIDMissing "PD011910" = true :=
  C10_missing_transaction_id envRevertEstimate reqNoID
    (.ethTransaction "0xb60e8dd61c5d32be8058bb8eb970870f07233155") rfl

/-- Environment whose ABI parsing step fails, mirroring the unit tests'
`ABIFunction` / `ABIConstructor` mocks returning "ABI function parsing
error". -/
def envABIParseFailure : NewTxEnv :=
  { resolveKey := .ok "0xb60e8dd61c5d32be8058bb8eb970870f07233155"
    abiParse := .error "ABI function parsing error"
    buildCallData := .ok ()
    gasEstimate := .ok 10
    getTransactionCount := .ok 1
    insertTransaction := .ok ()
    zeroGasPriceChain := false }

/-- Request with an ID and a caller-supplied gas limit, as in the
contract-invoke unit tests. -/
def reqWithGas : RequestOptions :=
  { id := some "u3", signerID := "0xb60e8dd61c5d32be8058bb8eb970870f07233155"
    gasLimit := some 1223451 }

/-- C4 counterexample: on a contract-invoke payload whose function-ABI parse
fails, HandleNewTransaction returns submissionRejected=false (with the ABI
parsing error), not submissionRejected=true as the claim states — matching
the engine unit tests, which assert the flag is false for both the invoke
and the deploy ABI-parse failures. -/
theorem C4_counterexample :
    (HandleNewTransaction envABIParseFailure reqWithGas
        (.ethTransaction "0x4e598f6e918321dd47c86e7a077b4ab0e7414846")).submissionRejected
      = false ∧
    (HandleNewTransaction envABIParseFailure reqWithGas
        (.ethTransaction "0x4e598f6e918321dd47c86e7a077b4ab0e7414846")).err
      = some "ABI function parsing error" := by
  decide

/-- C4 (amended): for every call to HandleNewTransaction with a
contract-invoke or contract-deploy payload in which parsing the function or
constructor ABI fails, the call returns submissionRejected=false (the
failure is treated as transient, not payload-fatal) together with the ABI
parsing error, and no PTX is inserted into the store. -/
theorem C4_abi_parse_failure_transient
    (env : NewTxEnv) (req : RequestOptions) (payload : TxPayload)
    (txId addr e : String)
    (hid : req.id = some txId) (habi : payloadNeedsABI payload = true)
    (hkey : env.resolveKey = .ok addr) (hparse : env.abiParse = .error e) :
    (HandleNewTransaction env req payload).submissionRejected = false ∧
    (HandleNewTransaction env req payload).err = some e ∧
    ∀ ptx : PublicTX,
      EngineCall.callInsertTransaction ptx ∉ (HandleNewTransaction env req payload).trace := by
  cases payload <;>
    simp_all [HandleNewTransaction, payloadRecognized, payloadNeedsABI]

theorem C4_abi_parse_failure_transient_witness :
    (HandleNewTransaction envABIParseFailure reqWithGas
        .ethDeployTransaction).submissionRejected = false ∧
    (HandleNewTransaction envABIParseFailure reqWithGas
        .ethDeployTransaction).err = some "ABI function parsing error" ∧
    ∀ ptx : PublicTX,
      EngineCall.callInsertTransaction ptx ∉
        (HandleNewTransaction envABIParseFailure reqWithGas .ethDeployTransaction).trace :=
  C4_abi_parse_failure_transient envABIParseFailure reqWithGas .ethDeployTransaction
    "u3" "0xb60e8dd61c5d32be8058bb8eb970870f07233155" "ABI function parsing error"
    rfl rfl rfl rfl

/-- Environment for the supplied-gas-limit transfer on a zero-gas-price
chain: every collaborator succeeds and the gas-price client reports a
zero-gas-price chain, as with the Zero gas-price client of the unit tests. -/
def envZeroGasChain : NewTxEnv :=
  { resolveKey := .ok "0x4e598f6e918321dd47c86e7a077b4ab0e7414846"
    abiParse := .ok ()
    buildCallData := .ok ()
    gasEstimate := .ok 10
    getTransactionCount := .ok 1
    insertTransaction := .ok ()
    zeroGasPriceChain := true }

/-- Request of the spec's successful-transfer scenario: ID present and
gasLimit=1223451 supplied by the caller. -/
def reqSuppliedGas : RequestOptions :=
  { id := some "u1", signerID := "0x4e598f6e918321dd47c86e7a077b4ab0e7414846"
    gasLimit := some 1223451 }

/-- C8 counterexample: a transfer request that already supplies
gasLimit=1223451, handled by an engine whose gas-price client reports a
zero-gas-price chain, succeeds (err=nil) but inserts a PTX whose gas price
is 0 — not nil as the claim states for every such request.  This matches
the engine unit test that asserts the inserted gas price is "0" under the
zero gas-price client. -/
theorem C8_counterexample :
    ((HandleNewTransaction envZeroGasChain reqSuppliedGas
        (.ethTransfer "0xb60e8dd61c5d32be8058bb8eb970870f07233155" 100)).tx.bind
      (fun t => t.gasPrice)) = some 0 ∧
    (HandleNewTransaction envZeroGasChain reqSuppliedGas
        (.ethTransfer "0xb60e8dd61c5d32be8058bb8eb970870f07233155" 100)).err = none := by
  decide

/-- C8 (amended): for every transfer request that already supplies a gas
limit, when key resolution, the nonce query and the store insert succeed,
HandleNewTransaction never calls the ledger's GasEstimate, inserts a PTX
whose gas limit equals the supplied value and whose gas price is nil
(deferred) unless the gas-price client reports a zero-gas-price chain (in
which case it is 0), persists the AssignNonce sub-status after querying
GetTransactionCount, and returns (submissionRejected=false, err=nil). -/
theorem C8_supplied_gas_limit_transfer
    (env : NewTxEnv) (req : RequestOptions) (toAddr : String)
    (value gas nonce : Nat) (txId addr : String)
    (hid : req.id = some txId) (hgl : req.gasLimit = some gas)
    (hkey : env.resolveKey = .ok addr)
    (hcount : env.getTransactionCount = .ok nonce)
    (hins : env.insertTransaction = .ok ()) :
    HandleNewTransaction env req (.ethTransfer toAddr value) =
      { tx := some (mkInsertedTransfer env txId addr toAddr value gas nonce)
        submissionRejected := false
        err := none
        trace := [.callResolveKey, .callGetTransactionCount,
                  .callInsertTransaction (mkInsertedTransfer env txId addr toAddr value gas nonce),
                  .callUpdateSubStatus txId .Received .AssignNonce] } ∧
    (mkInsertedTransfer env txId addr toAddr value gas nonce).gasLimit = some gas ∧
    (mkInsertedTransfer env txId addr toAddr value gas nonce).gasPrice =
      (if env.zeroGasPriceChain then some 0 else none) := by
  refine ⟨?_, rfl, rfl⟩
  simp [HandleNewTransaction, estimateStage, persistNewTx, mkInsertedTransfer,
    payloadRecognized, payloadNeedsABI, payloadToAddr, payloadValue,
    hid, hgl, hkey, hcount, hins]

/-- Environment of the spec's successful-transfer scenario proper: like
`envZeroGasChain` but with a deferred (nil) gas price, as with the
node-derived gas-price client whose query fails. -/
def envDeferredGasPrice : NewTxEnv :=
  { envZeroGasChain with zeroGasPriceChain := false }

theorem C8_supplied_gas_limit_transfer_witness :
    HandleNewTransaction envDeferredGasPrice reqSuppliedGas
        (.ethTransfer "0xb60e8dd61c5d32be8058bb8eb970870f07233155" 100) =
      { tx := some (mkInsertedTransfer envDeferredGasPrice "u1"
          "0x4e598f6e918321dd47c86e7a077b4ab0e7414846"
          "0xb60e8dd61c5d32be8058bb8eb970870f07233155" 100 1223451 1)
        submissionRejected := false
        err := none
        trace := [.callResolveKey, .callGetTransactionCount,
                  .callInsertTransaction (mkInsertedTransfer envDeferredGasPrice "u1"
                    "0x4e598f6e918321dd47c86e7a077b4ab0e7414846"
                    "0xb60e8dd61c5d32be8058bb8eb970870f07233155" 100 1223451 1),
                  .callUpdateSubStatus "u1" .Received .AssignNonce] } ∧
    (mkInsertedTransfer envDeferredGasPrice "u1"
      "0x4e598f6e918321dd47c86e7a077b4ab0e7414846"
      "0xb60e8dd61c5d32be8058bb8eb970870f07233155" 100 1223451 1).gasLimit = some 1223451 ∧
    (mkInsertedTransfer envDeferredGasPrice "u1"
      "0x4e598f6e918321dd47c86e7a077b4ab0e7414846"
      "0xb60e8dd61c5d32be8058bb8eb970870f07233155" 100 1223451 1).gasPrice =
      (if envDeferredGasPrice.zeroGasPriceChain then some 0 else none) :=
  C8_supplied_gas_limit_transfer envDeferredGasPrice reqSuppliedGas
    "0xb60e8dd61c5d32be8058bb8eb970870f07233155" 100 1223451 1 "u1"
    "0x4e598f6e918321dd47c86e7a077b4ab0e7414846" rfl rfl rfl rfl rfl

/-- A Pending PTX used by the suspend/resume scenarios. -/
def pendingTx : PublicTX :=
  { id := "t1"
    fromAddr := "0x4e598f6e918321dd47c86e7a077b4ab0e7414846"
    toAddr := some "0xb60e8dd61c5d32be8058bb8eb970870f07233155"
    value := some 100
    gasLimit := some 1223451
    gasPrice := none
    nonce := some 1
    status := .Pending }

/-- Store holding just `pendingTx`. -/
def storePending : Store := ⟨[pendingTx]⟩

/-- Action environment with no injected failures and a live context. -/
def envActionOk : ActionEnv :=
  { getFailure := none, updateFailure := none, ctxCancelled := false }

/-- Engine whose orchestrator for `pendingTx`'s signer holds `pendingTx`
in flight. -/
def engInFlight : EngineState :=
  { orchestrators := [("0x4e598f6e918321dd47c86e7a077b4ab0e7414846", ⟨["t1"]⟩)]
    maxInFlightOrchestrators := -1 }

/-- C2 counterexample: for the non-terminal (Pending) PTX `pendingTx`,
whose orchestrator is live and whose IFT is in flight,
HandleSuspendTransaction performs no store update at all (the store is
unchanged and the PTX it holds is still Pending) and returns the PTX with
its old Pending status — the state change is only queued asynchronously —
contradicting the claim that the status is updated in the store to
Suspended and the updated PTX returned. -/
theorem C2_counterexample :
    (HandleSuspendTransaction engInFlight storePending envActionOk "t1").outcome
      = .ok pendingTx ∧
    pendingTx.status = .Pending ∧
    (HandleSuspendTransaction engInFlight storePending envActionOk "t1").storeUpdated = false ∧
    (HandleSuspendTransaction engInFlight storePending envActionOk "t1").store = storePending ∧
    (HandleSuspendTransaction engInFlight storePending envActionOk "t1").queuedAsync = true := by
  decide

/-- C2 (amended): for every Pending PTX, when no live orchestrator holds its
IFT in flight, HandleSuspendTransaction updates the PTX's status in the
store to Suspended and returns the updated PTX; when the orchestrator is
live and the IFT is in flight, the state change is instead forwarded
asynchronously so the IFT's loop observes it, with no synchronous store
update, and the PTX is returned with its current status. -/
theorem C2_suspend_dispatch
    (eng : EngineState) (store : Store) (env : ActionEnv) (txId : String)
    (tx : PublicTX)
    (hget : store.getTransactionByID txId = some tx)
    (hst : tx.status = .Pending)
    (henvGet : env.getFailure = none) (henvUpd : env.updateFailure = none)
    (hctx : env.ctxCancelled = false) :
    (txInFlightFor eng tx.fromAddr txId = true →
      HandleSuspendTransaction eng store env txId =
        { outcome := .ok tx, store := store, storeUpdated := false, queuedAsync := true }) ∧
    (txInFlightFor eng tx.fromAddr txId = false →
      HandleSuspendTransaction eng store env txId =
        { outcome := .ok { tx with status := .Suspended }
          store := store.updateStatus txId .Suspended
          storeUpdated := true, queuedAsync := false }) := by
  constructor <;> intro hin <;>
    simp [HandleSuspendTransaction, dispatchAction, PubTxStatus.isTerminal,
      hget, hst, henvGet, henvUpd, hctx, hin]

theorem C2_suspend_dispatch_witness :
    (txInFlightFor engInFlight pendingTx.fromAddr "t1" = true →
      HandleSuspendTransaction engInFlight storePending envActionOk "t1" =
        { outcome := .ok pendingTx, store := storePending
          storeUpdated := false, queuedAsync := true }) ∧
    (txInFlightFor engInFlight pendingTx.fromAddr "t1" = false →
      HandleSuspendTransaction engInFlight storePending envActionOk "t1" =
        { outcome := .ok { pendingTx with status := .Suspended }
          store := storePending.updateStatus "t1" .Suspended
          storeUpdated := true, queuedAsync := false }) :=
  C2_suspend_dispatch engInFlight storePending envActionOk "t1" pendingTx
    rfl rfl rfl rfl rfl

/-- C6: for every PTX in terminal status (Succeeded or Failed), both
HandleSuspendTransaction and HandleResumeTransaction return the
TerminalStatusUpdate error (PD011921) and leave the store untouched, so
there is never a departure from a terminal status. -/
theorem C6_terminal_status_rejected
    (eng : EngineState) (store : Store) (env : ActionEnv) (txId : String)
    (tx : PublicTX)
    (hget : store.getTransactionByID txId = some tx)
    (hterm : tx.status.isTerminal = true)
    (henvGet : env.getFailure = none) (hctx : env.ctxCancelled = false) :
    HandleSuspendTransaction eng store env txId =
      { outcome := .err errTerminalStatusUpdate, store := store
        storeUpdated := false, queuedAsync := false } ∧
    HandleResumeTransaction eng store env txId =
      { outcome := .err errTerminalStatusUpdate, store := store
        storeUpdated := false, queuedAsync := false } ∧
    strHasSub errTerminalStatusUpdate "PD011921" = true := by
  refine ⟨?_, ?_, by decide⟩ <;>
  · cases htx : tx.status <;>
      simp_all [HandleSuspendTransaction, HandleResumeTransaction, dispatchAction,
        PubTxStatus.isTerminal, hget, henvGet, hctx]

/-- A Failed PTX used by the terminal-status witness. -/
def failedTx : PublicTX := { pendingTx with id := "t2", status := .Failed }

/-- Store holding just `failedTx`. -/
def storeFailed : Store := ⟨[failedTx]⟩

theorem C6_terminal_status_rejected_witness :
    HandleSuspendTransaction engInFlight storeFailed envActionOk "t2" =
      { outcome := .err errTerminalStatusUpdate, store := storeFailed
        storeUpdated := false, queuedAsync := false } ∧
    HandleResumeTransaction engInFlight storeFailed envActionOk "t2" =
      { outcome := .err errTerminalStatusUpdate, store := storeFailed
        storeUpdated := false, queuedAsync := false } ∧
    strHasSub errTerminalStatusUpdate "PD011921" = true :=
  C6_terminal_status_rejected engInFlight storeFailed envActionOk "t2" failedTx
    rfl rfl rfl rfl

/-- List-level core of `getTransactionByID_updateStatus`: finding by ID
after mapping the status update returns the found record with the new
status. -/
theorem find?_id_map_setStatus
    (l : List PublicTX) (txId : String) (st : PubTxStatus) (tx : PublicTX)
    (h : l.find? (fun t => t.id == txId) = some tx) :
    (l.map (fun t => if t.id == txId then { t with status := st } else t)).find?
        (fun t => t.id == txId) = some { tx with status := st } := by
  induction l with
  | nil => simp at h
  | cons hd tl ih =>
    cases hv : (hd.id == txId) with
    | true =>
      have hfind : List.find? (fun t => t.id == txId) (hd :: tl) = some hd :=
        List.find?_cons_of_pos tl hv
      rw [hfind] at h
      injection h with h
      subst h
      simp only [List.map_cons, if_pos hv]
      refine List.find?_cons_of_pos _ ?_
      exact hv
    | false =>
      have hfind : List.find? (fun t => t.id == txId) (hd :: tl)
          = List.find? (fun t => t.id == txId) tl :=
        List.find?_cons_of_neg tl (by simp [hv])
      rw [hfind] at h
      simp only [List.map_cons, if_neg (by simp [hv] : ¬ (hd.id == txId) = true)]
      have hgoal : List.find? (fun t => t.id == txId)
          (hd :: List.map (fun t => if t.id == txId then { t with status := st } else t) tl)
          = List.find? (fun t => t.id == txId)
              (List.map (fun t => if t.id == txId then { t with status := st } else t) tl) :=
        List.find?_cons_of_neg
          (List.map (fun t => if t.id == txId then { t with status := st } else t) tl)
          (by simp [hv])
      rw [hgoal]
      exact ih h

/-- Reading a transaction back after a status update returns the same record
with the new status. -/
theorem getTransactionByID_updateStatus
    (s : Store) (txId : String) (st : PubTxStatus) (tx : PublicTX)
    (h : s.getTransactionByID txId = some tx) :
    (s.updateStatus txId st).getTransactionByID txId = some { tx with status := st } := by
  obtain ⟨l⟩ := s
  exact find?_id_map_setStatus l txId st tx h

/-- Engine with no orchestrators, used where the PTX must not be in
flight. -/
def engEmpty : EngineState := { orchestrators := [], maxInFlightOrchestrators := -1 }

/-- C7: HandleSuspendTransaction is idempotent on the store-update path:
the first call moves the Pending PTX to Suspended in the store; the second
call, run on the resulting store, finds the PTX already Suspended, performs
no further store update, leaves the store as the first call left it, and
returns the PTX with status Suspended and no error — the same outcome as
the first call. -/
theorem C7_suspend_idempotent
    (eng : EngineState) (store : Store) (env : ActionEnv) (txId : String)
    (tx : PublicTX)
    (hget : store.getTransactionByID txId = some tx)
    (hst : tx.status = .Pending)
    (hfl : txInFlightFor eng tx.fromAddr txId = false)
    (henvGet : env.getFailure = none) (henvUpd : env.updateFailure = none)
    (hctx : env.ctxCancelled = false) :
    (HandleSuspendTransaction eng store env txId).outcome
      = .ok { tx with status := .Suspended } ∧
    HandleSuspendTransaction eng
        (HandleSuspendTransaction eng store env txId).store env txId =
      { outcome := .ok { tx with status := .Suspended }
        store := (HandleSuspendTransaction eng store env txId).store
        storeUpdated := false
        queuedAsync := false } := by
  have h1 : HandleSuspendTransaction eng store env txId =
      { outcome := .ok { tx with status := .Suspended }
        store := store.updateStatus txId .Suspended
        storeUpdated := true, queuedAsync := false } := by
    simp [HandleSuspendTransaction, dispatchAction, PubTxStatus.isTerminal,
      hget, hst, hfl, henvGet, henvUpd, hctx]
  have h2 : (store.updateStatus txId .Suspended).getTransactionByID txId
      = some { tx with status := .Suspended } :=
    getTransactionByID_updateStatus store txId .Suspended tx hget
  refine ⟨by rw [h1], ?_⟩
  rw [h1]
  simp [HandleSuspendTransaction, dispatchAction, h2, henvGet, hctx]

theorem C7_suspend_idempotent_witness :
    (HandleSuspendTransaction engEmpty storePending envActionOk "t1").outcome
      = .ok { pendingTx with status := .Suspended } ∧
    HandleSuspendTransaction engEmpty
        (HandleSuspendTransaction engEmpty storePending envActionOk "t1").store
        envActionOk "t1" =
      { outcome := .ok { pendingTx with status := .Suspended }
        store := (HandleSuspendTransaction engEmpty storePending envActionOk "t1").store
        storeUpdated := false
        queuedAsync := false } :=
  C7_suspend_idempotent engEmpty storePending envActionOk "t1" pendingTx
    rfl rfl rfl rfl rfl rfl

/-- A confirmed-transaction event used by the C3 counterexample. -/
def eventC3 : IndexedTransaction :=
  { blockNumber := 1233, transactionIndex := 23, hash := "0x00001"
    resultSuccess := true, nonce := 1
    fromAddr := "0x4e598f6e918321dd47c86e7a077b4ab0e7414846" }

/-- C3 counterexample: under a canceled context,
HandleConfirmedTransactions surfaces the common PD010301 context-canceled
error, whose identifier does not belong to the PD011926 class — so the
claim that all three of Suspend/Resume/HandleConfirmed surface a
PD011926-class error is false at this input.  This matches the engine unit
test, which asserts PD010301 on the canceled HandleConfirmedTransactions
call (and PD011926 only on Suspend/Resume). -/
theorem C3_counterexample :
    HandleConfirmedTransactions engInFlight true [eventC3] = .err errContextCanceledCommon ∧
    strHasSub errContextCanceledCommon "PD011926" = false ∧
    strHasSub errContextCanceledCommon "PD010301" = true := by
  decide

/-- C3 (amended): under a canceled context, HandleSuspendTransaction and
HandleResumeTransaction each surface the PD011926-class ContextCancelled
error to their caller, while HandleConfirmedTransactions surfaces the
common PD010301-class context-canceled error. -/
theorem C3_context_cancellation
    (eng : EngineState) (store : Store) (env : ActionEnv) (txId : String)
    (tx : PublicTX) (events : List IndexedTransaction)
    (hctx : env.ctxCancelled = true)
    (hget : env.getFailure = none)
    (htx : store.getTransactionByID txId = some tx) :
    (HandleSuspendTransaction eng store env txId).outcome = .err errContextCancelled ∧
    (HandleResumeTransaction eng store env txId).outcome = .err errContextCancelled ∧
    HandleConfirmedTransactions eng true events = .err errContextCanceledCommon ∧
    strHasSub errContextCancelled "PD011926" = true := by
  refine ⟨?_, ?_, ?_, by decide⟩ <;>
    simp [HandleSuspendTransaction, HandleResumeTransaction, HandleConfirmedTransactions,
      dispatchAction, hctx, hget, htx]

/-- Action environment observing a canceled context right after the store
read, as in the cancellation unit test. -/
def envActionCancelled : ActionEnv :=
  { getFailure := none, updateFailure := none, ctxCancelled := true }

theorem C3_context_cancellation_witness :
    (HandleSuspendTransaction engInFlight storePending envActionCancelled "t1").outcome
      = .err errContextCancelled ∧
    (HandleResumeTransaction engInFlight storePending envActionCancelled "t1").outcome
      = .err errContextCancelled ∧
    HandleConfirmedTransactions engInFlight true [eventC3] = .err errContextCanceledCommon ∧
    strHasSub errContextCancelled "PD011926" = true :=
  C3_context_cancellation engInFlight storePending envActionCancelled "t1" pendingTx
    [eventC3] rfl rfl rfl

/-- Engine of the confirmation-dispatch scenario: one live orchestrator (for
signer 0xaaaa..., holding one in-flight transaction) and
maxInFlightOrchestrators=2. -/
def engConfirmScenario : EngineState :=
  { orchestrators := [("0xaaaaf6e918321dd47c86e7a077b4ab0e741aaaa", ⟨["tprev"]⟩)]
    maxInFlightOrchestrators := 2 }

/-- The batch of 5 confirmations across 4 distinct signers delivered by the
indexer in the confirmation-dispatch scenario. -/
def eventsConfirmScenario : List IndexedTransaction :=
  [ { blockNumber := 1233, transactionIndex := 23, hash := "0x00001"
      resultSuccess := true, nonce := 1
      fromAddr := "0xaaaaf6e918321dd47c86e7a077b4ab0e741aaaa" }
  , { blockNumber := 1233, transactionIndex := 23, hash := "0x00002"
      resultSuccess := true, nonce := 4
      fromAddr := "0xaaaaf6e918321dd47c86e7a077b4ab0e741aaaa" }
  , { blockNumber := 1233, transactionIndex := 23, hash := "0x00003"
      resultSuccess := true, nonce := 6
      fromAddr := "0xbbbbf6e918321dd47c86e7a077b4ab0e741bbbb" }
  , { blockNumber := 1233, transactionIndex := 23, hash := "0x00004"
      resultSuccess := true, nonce := 7
      fromAddr := "0xccccf6e918321dd47c86e7a077b4ab0e741cccc" }
  , { blockNumber := 1233, transactionIndex := 23, hash := "0x00005"
      resultSuccess := true, nonce := 8
      fromAddr := "0xddddf6e918321dd47c86e7a077b4ab0e741dddd" } ]

/-- C5: confirmation dispatch respects the orchestrator bound.  Starting
from an engine with 1 live orchestrator and maxInFlightOrchestrators=2,
HandleConfirmedTransactions on a batch of 5 confirmations across 4 distinct
signers returns no error, spawns an orchestrator only for the first signer
without one (0xbbbb...; 0xcccc... and 0xdddd... are skipped at the bound)
and ends with exactly 2 live orchestrators. -/
theorem C5_confirmation_dispatch_bound :
    HandleConfirmedTransactions engConfirmScenario false eventsConfirmScenario =
      .ok { orchestrators :=
              [ ("0xaaaaf6e918321dd47c86e7a077b4ab0e741aaaa", ⟨["tprev"]⟩)
              , ("0xbbbbf6e918321dd47c86e7a077b4ab0e741bbbb", ⟨[]⟩) ]
            maxInFlightOrchestrators := 2 } ∧
    eventsConfirmScenario.length = 5 ∧
    (eventsConfirmScenario.map IndexedTransaction.fromAddr).dedup.length = 4 := by
  decide

end Paladin
